import Mathlib

set_option autoImplicit false

/-!
Verification development for the aquarium monitoring service core:
the telemetry collector pipeline (monitoring_service/telemetry.py) and
the sensor registry/factory (monitoring_service/sensors/factory.py).

Python dictionaries are modelled as association lists in insertion
order (assignment updates an existing key in place, otherwise appends),
numbers as exact rationals, and the effect of each driver read as an
explicitly supplied outcome (a mapping on success, an opaque error
message when the read raises).
-/

/-- Lookup in an insertion-ordered association list, mirroring a Python
dict access that returns the default when the key is absent. -/
def alistGet {κ α : Type} [DecidableEq κ] : List (κ × α) → κ → Option α
  | [], _ => Option.none
  | (k, v) :: rest, key => if k = key then some v else alistGet rest key

/-- Assignment on an insertion-ordered association list: update an
existing key in place, otherwise append, as Python dict assignment does. -/
def alistInsert {κ α : Type} [DecidableEq κ] : List (κ × α) → κ → α → List (κ × α)
  | [], key, val => [(key, val)]
  | (k, v) :: rest, key, val =>
      if k = key then (key, val) :: rest else (k, v) :: alistInsert rest key val

/-- A value flowing out of a driver read: a number (int or float,
modelled exactly as a rational), a boolean, or a string. -/
inductive Value where
  | num (q : ℚ)
  | boolv (b : Bool)
  | strv (s : String)
deriving Repr, DecidableEq

/-- The isinstance check against (int, float) used throughout
telemetry.py; in Python bool is a subclass of int, so booleans count. -/
def Value.isNumberLike : Value → Bool
  | .num _ => true
  | .boolv _ => true
  | .strv _ => false

/-- Numeric content of a number-like value; Python arithmetic treats
True as 1 and False as 0. -/
def Value.toRat : Value → ℚ
  | .num q => q
  | .boolv b => if b then 1 else 0
  | .strv _ => 0

/-- The driver object held by a bundle, as seen by the collector:
its concrete class name and the three optional attributes consulted
when deriving the bundle identity. -/
structure Driver where
  className : String
  id : Option String := Option.none
  path : Option String := Option.none
  pin : Option Int := Option.none
deriving Repr, DecidableEq

/-- One calibration entry as stored on a bundle; the collector reads
slope and offset with dict.get defaults 1.0 and 0.0, so both are
optional here. -/
structure CalEntry where
  slope : Option ℚ := Option.none
  offset : Option ℚ := Option.none
deriving Repr, DecidableEq

/-- One range entry as stored on a bundle; the collector reads min and
max with dict.get defaults of minus and plus infinity, modelled as
absent bounds. -/
structure RangeEntry where
  min : Option ℚ := Option.none
  max : Option ℚ := Option.none
deriving Repr, DecidableEq

/-- SensorBundle as the collector consumes it, with the field types the
dataclass declares (keys dict str to str, calibration and ranges dicts
of entry dicts, smoothing dict str to int, optional interval).  The
token field stands for hex of the object address of the bundle, the
process-local fallback used by the bundle identity. -/
structure SensorBundle where
  driver : Driver
  token : String
  keys : List (String × String) := []
  calibration : List (String × CalEntry) := []
  ranges : List (String × RangeEntry) := []
  smoothing : List (String × Int) := []
  interval : Option Int := Option.none
deriving Repr, DecidableEq

/-- The two keyed stores the collector owns across cycles: last read
time per bundle identity and the EMA accumulator per identity and key. -/
structure CollectorState where
  last_read : List (String × ℚ) := []
  ema : List ((String × String) × ℚ) := []
deriving Repr, DecidableEq

/-- Truthiness filter for an optional string attribute: the Python or
chain skips a present but empty string. -/
def truthyStr : Option String → Option String
  | Option.none => Option.none
  | some s => if s = "" then Option.none else some s

/-- Truthiness filter for an optional integer attribute: the Python or
chain skips a present but zero pin. -/
def truthyInt : Option Int → Option Int
  | Option.none => Option.none
  | some n => if n = 0 then Option.none else some n

/-- TelemetryCollector._bundle_id: class name of the driver, a colon,
then the first truthy attribute among id, path and pin, with the
process-local token as the final fallback. -/
def bundle_id (b : SensorBundle) : String :=
  b.driver.className ++ ":" ++
    match truthyStr b.driver.id with
    | some s => s
    | Option.none =>
      match truthyStr b.driver.path with
      | some s => s
      | Option.none =>
        match truthyInt b.driver.pin with
        | some n => toString n
        | Option.none => b.token

/-- TelemetryCollector._is_due: a missing or non-positive interval is
always due; otherwise a bundle with no recorded last read is due, and
one with a recorded last read is due exactly when the elapsed time has
reached the interval. -/
def is_due (last_read : List (String × ℚ)) (bid : String) (now : ℚ)
    (interval : Option Int) : Bool :=
  match interval with
  | Option.none => true
  | some i =>
    if i ≤ 0 then true
    else
      match alistGet last_read bid with
      | Option.none => true
      | some last => decide ((now - last) ≥ (i : ℚ))

/-- TelemetryCollector._map_keys: rename raw keys through the bundle
key map, dropping raw keys that have no mapping. -/
def map_keys (b : SensorBundle) (raw : List (String × Value)) :
    List (String × Value) :=
  raw.foldl
    (fun acc p =>
      match alistGet b.keys p.1 with
      | some canon => alistInsert acc canon p.2
      | Option.none => acc)
    []

/-- TelemetryCollector._apply_calibration: a number-like value with a
calibration entry becomes value times slope plus offset (slope default
1, offset default 0); everything else passes through unchanged. -/
def apply_calibration (b : SensorBundle) (mapped : List (String × Value)) :
    List (String × Value) :=
  mapped.foldl
    (fun acc p =>
      match alistGet b.calibration p.1 with
      | some cal =>
        if p.2.isNumberLike then
          alistInsert acc p.1
            (Value.num (p.2.toRat * cal.slope.getD 1 + cal.offset.getD 0))
        else alistInsert acc p.1 p.2
      | Option.none => alistInsert acc p.1 p.2)
    []

/-- One key of TelemetryCollector._apply_smoothing, threading the
output dict and the EMA store: pass through non-numeric values, keys
without a smoothing window and windows below 2; seed the store on the
first observation; otherwise apply the EMA recurrence and store the
result. -/
def smoothStep (uid : String) (smoothing : List (String × Int))
    (st : List (String × Value) × List ((String × String) × ℚ))
    (p : String × Value) :
    List (String × Value) × List ((String × String) × ℚ) :=
  match alistGet smoothing p.1, p.2.isNumberLike with
  | Option.none, _ => (alistInsert st.1 p.1 p.2, st.2)
  | some _, false => (alistInsert st.1 p.1 p.2, st.2)
  | some w, true =>
    if w < 2 then (alistInsert st.1 p.1 p.2, st.2)
    else
      match alistGet st.2 (uid, p.1) with
      | Option.none =>
        (alistInsert st.1 p.1 p.2, alistInsert st.2 (uid, p.1) p.2.toRat)
      | some prev =>
        let alpha : ℚ := 2 / ((w : ℚ) + 1)
        let smoothed : ℚ := alpha * p.2.toRat + (1 - alpha) * prev
        (alistInsert st.1 p.1 (Value.num smoothed),
         alistInsert st.2 (uid, p.1) smoothed)

/-- TelemetryCollector._apply_smoothing over a calibrated dict, in
iteration order, returning the smoothed dict and the updated EMA store. -/
def apply_smoothing (uid : String) (smoothing : List (String × Int))
    (ema : List ((String × String) × ℚ)) (calibrated : List (String × Value)) :
    List (String × Value) × List ((String × String) × ℚ) :=
  calibrated.foldl (smoothStep uid smoothing) ([], ema)

/-- The inclusive bound check of TelemetryCollector._apply_ranges, with
absent min and max standing for minus and plus infinity. -/
def rangeContains (r : RangeEntry) (q : ℚ) : Bool :=
  (match r.min with
   | Option.none => true
   | some m => decide (m ≤ q)) &&
  (match r.max with
   | Option.none => true
   | some m => decide (q ≤ m))

/-- TelemetryCollector._apply_ranges: a number-like value with a range
entry survives only inside the inclusive bounds; non-numeric values and
keys without a range entry pass through. -/
def apply_ranges (b : SensorBundle) (smoothed : List (String × Value)) :
    List (String × Value) :=
  smoothed.foldl
    (fun acc p =>
      match alistGet b.ranges p.1 with
      | some r =>
        if p.2.isNumberLike then
          if rangeContains r p.2.toRat then alistInsert acc p.1 p.2 else acc
        else alistInsert acc p.1 p.2
      | Option.none => alistInsert acc p.1 p.2)
    []

/-- The outcome of invoking driver.read() for one bundle this cycle:
the raw mapping on success, or the message of the exception it raised. -/
abbrev ReadOutcome : Type := Except String (List (String × Value))

/-- One iteration of the loop in TelemetryCollector.as_dict for one
bundle, given the outcome its read would produce: skip when not due,
log and skip on a raised read with no state change, otherwise run the
pipeline, record the read time and merge the surviving keys. -/
def collectStep (now : ℚ)
    (st : CollectorState × List (String × Value))
    (p : SensorBundle × ReadOutcome) :
    CollectorState × List (String × Value) :=
  let bid := bundle_id p.1
  if is_due st.1.last_read bid now p.1.interval then
    match p.2 with
    | .error _ => st
    | .ok raw =>
      let mapped := map_keys p.1 raw
      let calibrated := apply_calibration p.1 mapped
      let sm := apply_smoothing bid p.1.smoothing st.1.ema calibrated
      let ranged := apply_ranges p.1 sm.1
      let state' : CollectorState :=
        { last_read := alistInsert st.1.last_read bid now, ema := sm.2 }
      (state', ranged.foldl (fun acc q => alistInsert acc q.1 q.2) st.2)
  else st

/-- TelemetryCollector.as_dict for one cycle: now is sampled once, the
bundles are visited in declared order paired with the outcome of their
read, and the aggregate mapping plus the updated collector state is
returned; the function is total, so a cycle never raises. -/
def as_dict (st : CollectorState) (now : ℚ)
    (pairs : List (SensorBundle × ReadOutcome)) :
    CollectorState × List (String × Value) :=
  pairs.foldl (collectStep now) (st, [])

/-!
The factory model.  A configuration entry is an untyped value as a
JSON or YAML loader would produce it (mapping keys are strings); the
dynamic isinstance checks of factory.py are modelled by matching on the
value shape.  Exception messages are abstracted into structured
reasons, one per distinct raise site family; an AttributeError raised
by calling a dict method on a non-mapping is the opaque otherExc.
-/

/-- An untyped Python value as found in a loaded configuration. -/
inductive PyVal where
  | none
  | intv (n : Int)
  | floatv (q : ℚ)
  | boolv (b : Bool)
  | strv (s : String)
  | dictv (entries : List (String × PyVal))
  | listv (elems : List PyVal)

/-- Python truthiness of a configuration value. -/
def PyVal.truthy : PyVal → Bool
  | .none => false
  | .intv n => decide (n ≠ 0)
  | .floatv q => decide (q ≠ 0)
  | .boolv b => b
  | .strv s => decide (s ≠ "")
  | .dictv d => !d.isEmpty
  | .listv l => !l.isEmpty

/-- dict.get with default None. -/
def pyGet (entries : List (String × PyVal)) (k : String) : PyVal :=
  (alistGet entries k).getD PyVal.none

/-- isinstance against int; in Python a bool is an int. -/
def PyVal.isInt : PyVal → Bool
  | .intv _ => true
  | .boolv _ => true
  | _ => false

/-- Integer content of an int-like value; True is 1 and False is 0. -/
def PyVal.intVal : PyVal → Int
  | .intv n => n
  | .boolv b => if b then 1 else 0
  | _ => 0

/-- isinstance against (int, float); a bool counts as an int. -/
def PyVal.isNumber : PyVal → Bool
  | .intv _ => true
  | .floatv _ => true
  | .boolv _ => true
  | _ => false

/-- Numeric content of a number-like configuration value. -/
def PyVal.numVal : PyVal → ℚ
  | .intv n => (n : ℚ)
  | .floatv q => q
  | .boolv b => if b then 1 else 0
  | _ => 0

/-- The emptiness sentinel tuple (None, empty string, empty list) the
factory compares required driver fields against with Python equality. -/
def PyVal.isEmptySentinel : PyVal → Bool
  | .none => true
  | .strv s => decide (s = "")
  | .listv l => l.isEmpty
  | _ => false

/-- The whitespace characters str.strip removes from ASCII input. -/
def isSpaceChar (c : Char) : Bool :=
  decide (c = ' ') || decide (c = '\t') || decide (c = '\n') || decide (c = '\r')

/-- str.strip for the ASCII strings of a configuration file. -/
def pyStrip (s : String) : String :=
  String.mk (((s.toList.dropWhile isSpaceChar).reverse.dropWhile isSpaceChar).reverse)

/-- ASCII lowering of one character, as str.lower does on ASCII. -/
def lowerChar (c : Char) : Char :=
  if c.toNat ≥ 65 ∧ c.toNat ≤ 90 then Char.ofNat (c.toNat + 32) else c

/-- str.lower for the ASCII strings of a configuration file. -/
def pyLower (s : String) : String :=
  String.mk (s.toList.map lowerChar)

/-- The distinct validation failure families behind the
InvalidSensorConfigError raise sites of factory.py, replacing the
human-readable message strings. -/
inductive ConfigErr where
  | badType
  | badKeys
  | calKeyBlank
  | calKeyNotCanonical
  | calNotDict
  | calMissingFields
  | calNotNumeric
  | rangeKeyBlank
  | rangeKeyNotCanonical
  | rangeNotDict
  | rangeMissingFields
  | rangeNotNumeric
  | rangeMinNotLtMax
  | smoothKeyBlank
  | smoothKeyNotCanonical
  | smoothBadValue
  | badInterval
  | coercionFailed (field : String)
  | requiredNotAccepted
  | missingRequired
  | anyOfUnsatisfied
  | constructFailed
  | badTopLevelShape
  | sensorsNotList
deriving Repr, DecidableEq

/-- An exception escaping build or build_all: a configuration-taxonomy
error (InvalidSensorConfigError with its structured reason, or
UnknownSensorTypeError with the payload its constructor receives), or
an opaque non-factory exception such as the AttributeError from
calling a dict method on a non-mapping. -/
inductive BuildExc where
  | invalidSensorConfig (r : ConfigErr)
  | unknownSensorType (unknown_type : String) (known_types : List String)
      (sensor_id : PyVal)
  | otherExc

/-- A registered driver class: its name and the declarative metadata
the factory queries with getattr, plus its constructor, which may fail. -/
structure DriverClass where
  name : String
  REQUIRED_KWARGS : Option (List String) := Option.none
  REQUIRED_ANY_OF : Option (List (List String)) := Option.none
  ACCEPTED_KWARGS : List String := []
  COERCERS : List (String × (PyVal → Option PyVal)) := []
  construct : List (String × PyVal) → Option Driver

/-- The bundle as factory.build constructs it: the driver plus the
metadata maps exactly as they appear in the configuration entry. -/
structure BuiltBundle where
  driver : Driver
  keys : List (String × PyVal)
  calibration : List (String × PyVal)
  ranges : List (String × PyVal)
  smoothing : List (String × PyVal)
  interval : PyVal

/-- SensorFactory: the registry mapping a normalized type name to a
driver class. -/
structure SensorFactory where
  registry : List (String × DriverClass)

/-- Membership of a string key in the canonical set, the set of values
of the keys map; Python equality makes a string equal only to an equal
string, so non-string canonical values never match. -/
def canonMember (canonical : List PyVal) (k : String) : Bool :=
  canonical.any fun v =>
    match v with
    | .strv s => decide (s = k)
    | _ => false

/-- Step 1 of build: extract and normalize the type field; a missing,
non-string or blank type is an invalid configuration. -/
def checkType (entries : List (String × PyVal)) : Except BuildExc String :=
  match pyGet entries "type" with
  | .strv s =>
    if pyStrip s = "" then .error (.invalidSensorConfig .badType)
    else .ok (pyLower (pyStrip s))
  | _ => .error (.invalidSensorConfig .badType)

/-- Step 2 of build: the keys field must be a non-empty dict. -/
def checkKeys (entries : List (String × PyVal)) :
    Except BuildExc (List (String × PyVal)) :=
  match pyGet entries "keys" with
  | .dictv km => if km.isEmpty then .error (.invalidSensorConfig .badKeys) else .ok km
  | _ => .error (.invalidSensorConfig .badKeys)

/-- Fetch an optional metadata map, applying the falsy-to-empty-dict
normalization of the source; iterating a truthy non-mapping raises an
AttributeError, modelled as otherExc. -/
def getMapField (entries : List (String × PyVal)) (field : String) :
    Except BuildExc (List (String × PyVal)) :=
  let v := pyGet entries field
  if v.truthy then
    match v with
    | .dictv d => .ok d
    | _ => .error .otherExc
  else .ok []

/-- Step 3 of build for one calibration item, in source order: blank
key, non-canonical key, non-dict entry, missing offset or slope,
non-numeric offset or slope. -/
def checkCalPair (canonical : List PyVal) (p : String × PyVal) :
    Except BuildExc Unit :=
  if pyStrip p.1 = "" then .error (.invalidSensorConfig .calKeyBlank)
  else if !canonMember canonical p.1 then
    .error (.invalidSensorConfig .calKeyNotCanonical)
  else
    match p.2 with
    | .dictv cal =>
      if (alistGet cal "offset").isNone || (alistGet cal "slope").isNone then
        .error (.invalidSensorConfig .calMissingFields)
      else if !(pyGet cal "offset").isNumber || !(pyGet cal "slope").isNumber then
        .error (.invalidSensorConfig .calNotNumeric)
      else .ok ()
    | _ => .error (.invalidSensorConfig .calNotDict)

/-- Step 3 of build over the calibration map. -/
def checkCalMap (canonical : List PyVal) :
    List (String × PyVal) → Except BuildExc Unit
  | [] => .ok ()
  | p :: rest => (checkCalPair canonical p).bind fun _ => checkCalMap canonical rest

/-- Step 4 of build for one ranges item, in source order: blank key,
non-canonical key, non-dict entry, missing min or max, non-numeric
bounds, min not strictly below max. -/
def checkRangePair (canonical : List PyVal) (p : String × PyVal) :
    Except BuildExc Unit :=
  if pyStrip p.1 = "" then .error (.invalidSensorConfig .rangeKeyBlank)
  else if !canonMember canonical p.1 then
    .error (.invalidSensorConfig .rangeKeyNotCanonical)
  else
    match p.2 with
    | .dictv limits =>
      if (alistGet limits "min").isNone || (alistGet limits "max").isNone then
        .error (.invalidSensorConfig .rangeMissingFields)
      else if !(pyGet limits "min").isNumber || !(pyGet limits "max").isNumber then
        .error (.invalidSensorConfig .rangeNotNumeric)
      else if (pyGet limits "min").numVal ≥ (pyGet limits "max").numVal then
        .error (.invalidSensorConfig .rangeMinNotLtMax)
      else .ok ()
    | _ => .error (.invalidSensorConfig .rangeNotDict)

/-- Step 4 of build over the ranges map. -/
def checkRangeMap (canonical : List PyVal) :
    List (String × PyVal) → Except BuildExc Unit
  | [] => .ok ()
  | p :: rest => (checkRangePair canonical p).bind fun _ => checkRangeMap canonical rest

/-- Step 5 of build for one smoothing item, in source order: blank key,
non-canonical key, then the window must be an integer at least 1. -/
def checkSmoothPair (canonical : List PyVal) (p : String × PyVal) :
    Except BuildExc Unit :=
  if pyStrip p.1 = "" then .error (.invalidSensorConfig .smoothKeyBlank)
  else if !canonMember canonical p.1 then
    .error (.invalidSensorConfig .smoothKeyNotCanonical)
  else if !p.2.isInt then .error (.invalidSensorConfig .smoothBadValue)
  else if p.2.intVal < 1 then .error (.invalidSensorConfig .smoothBadValue)
  else .ok ()

/-- Step 5 of build over the smoothing map. -/
def checkSmoothMap (canonical : List PyVal) :
    List (String × PyVal) → Except BuildExc Unit
  | [] => .ok ()
  | p :: rest => (checkSmoothPair canonical p).bind fun _ => checkSmoothMap canonical rest

/-- Step 6 of build: an interval, when present, must be an integer of
at least 1. -/
def checkInterval (entries : List (String × PyVal)) : Except BuildExc Unit :=
  match pyGet entries "interval" with
  | .none => .ok ()
  | v =>
    if !v.isInt || v.intVal < 1 then .error (.invalidSensorConfig .badInterval)
    else .ok ()

/-- The data steps 1 to 6 of build validate and hand to the driver
resolution and construction steps. -/
structure ValidatedMeta where
  entries : List (String × PyVal)
  stype : String
  keys_map : List (String × PyVal)
  calibration_map : List (String × PyVal)
  ranges_map : List (String × PyVal)
  smoothing_map : List (String × PyVal)

/-- Steps 1 to 6 of SensorFactory.build, in source order; calling a
dict method on a non-mapping entry is the AttributeError otherExc. -/
def validateMeta (cfg : PyVal) : Except BuildExc ValidatedMeta :=
  match cfg with
  | .dictv entries =>
    (checkType entries).bind fun stype =>
    (checkKeys entries).bind fun km =>
    let canonical := km.map Prod.snd
    (getMapField entries "calibration").bind fun cm =>
    (checkCalMap canonical cm).bind fun _ =>
    (getMapField entries "ranges").bind fun rm =>
    (checkRangeMap canonical rm).bind fun _ =>
    (getMapField entries "smoothing").bind fun sm =>
    (checkSmoothMap canonical sm).bind fun _ =>
    (checkInterval entries).bind fun _ =>
    .ok ⟨entries, stype, km, cm, rm, sm⟩
  | _ => .error .otherExc

/-- Step 9 of build: filter the entry down to the accepted parameter
set of the driver class, in entry order. -/
def filterKwargs (dc : DriverClass) (entries : List (String × PyVal)) :
    List (String × PyVal) :=
  entries.foldl
    (fun acc p =>
      if dc.ACCEPTED_KWARGS.contains p.1 then alistInsert acc p.1 p.2 else acc)
    []

/-- Step 10 of build: apply the declared coercions to the filtered
fields that are present; a failing cast is an invalid configuration. -/
def applyCoercers (coercers : List (String × (PyVal → Option PyVal)))
    (filtered : List (String × PyVal)) :
    Except BuildExc (List (String × PyVal)) :=
  match coercers with
  | [] => .ok filtered
  | (field, cast) :: rest =>
    match alistGet filtered field with
    | Option.none => applyCoercers rest filtered
    | some v =>
      match cast v with
      | some v2 => applyCoercers rest (alistInsert filtered field v2)
      | Option.none => .error (.invalidSensorConfig (.coercionFailed field))

/-- Step 11 of build: the required-field contract.  A truthy
REQUIRED_KWARGS list is enforced in full, first failing fast when it is
not contained in the accepted set; otherwise a truthy REQUIRED_ANY_OF
list requires one fully satisfied group; with neither, no check. -/
def checkRequired (dc : DriverClass) (filtered : List (String × PyVal)) :
    Except BuildExc Unit :=
  let required_any_of : Option (List (List String)) :=
    match dc.REQUIRED_KWARGS with
    | Option.none => dc.REQUIRED_ANY_OF
    | some _ => Option.none
  match dc.REQUIRED_KWARGS with
  | some req =>
    if req.isEmpty then .ok ()
    else if !(req.filter (fun f => !dc.ACCEPTED_KWARGS.contains f)).isEmpty then
      .error (.invalidSensorConfig .requiredNotAccepted)
    else if !(req.filter (fun f =>
        match alistGet filtered f with
        | Option.none => true
        | some v => v.isEmptySentinel)).isEmpty then
      .error (.invalidSensorConfig .missingRequired)
    else .ok ()
  | Option.none =>
    match required_any_of with
    | some groups =>
      if groups.isEmpty then .ok ()
      else if groups.any (fun g => g.all (fun k =>
          match alistGet filtered k with
          | some v => !v.isEmptySentinel
          | Option.none => false)) then .ok ()
      else .error (.invalidSensorConfig .anyOfUnsatisfied)
    | Option.none => .ok ()

/-- SensorFactory.build: validate the metadata, resolve the driver
class (an unresolved type carries the attempted type, every registered
type name and any supplied id), filter and coerce the entry, enforce
the required-field contract, construct the driver (a constructor
failure is wrapped as an invalid configuration), and return the bundle. -/
def build (f : SensorFactory) (cfg : PyVal) : Except BuildExc BuiltBundle :=
  (validateMeta cfg).bind fun m =>
  match alistGet f.registry m.stype with
  | Option.none =>
    .error (.unknownSensorType m.stype (f.registry.map Prod.fst)
      (pyGet m.entries "id"))
  | some dc =>
    (applyCoercers dc.COERCERS (filterKwargs dc m.entries)).bind fun filtered =>
    (checkRequired dc filtered).bind fun _ =>
    match dc.construct filtered with
    | some d =>
      .ok ⟨d, m.keys_map, m.calibration_map, m.ranges_map, m.smoothing_map,
        pyGet m.entries "interval"⟩
    | Option.none => .error (.invalidSensorConfig .constructFailed)

/-- The per-entry loop of build_all.  A successful build appends its
bundle.  A failing build is logged and skipped; the log line reads
fields off the entry with dict.get, so for a non-mapping entry the
handler itself raises an AttributeError, which escapes build_all. -/
def buildEntries (f : SensorFactory) : List PyVal → Except BuildExc (List BuiltBundle)
  | [] => .ok []
  | cfg :: rest =>
    match build f cfg with
    | .ok b => (buildEntries f rest).map (fun bs => b :: bs)
    | .error _ =>
      match cfg with
      | .dictv _ => buildEntries f rest
      | _ => .error .otherExc

/-- SensorFactory.build_all: a dict input must carry a sensors member,
which must be a list; a list input is taken as is; anything else is the
fatal top-level shape error.  Entries are then built one by one. -/
def build_all (f : SensorFactory) (config : PyVal) : Except BuildExc (List BuiltBundle) :=
  match config with
  | .dictv entries =>
    if (alistGet entries "sensors").isSome then
      match pyGet entries "sensors" with
      | .listv xs => buildEntries f xs
      | _ => .error (.invalidSensorConfig .sensorsNotList)
    else .error (.invalidSensorConfig .badTopLevelShape)
  | .listv xs => buildEntries f xs
  | _ => .error (.invalidSensorConfig .badTopLevelShape)

/-!
Concrete fixtures used by the examples the claims quote.
-/

/-- A bundle carrying a window 3 smoothing entry for canonical key k
and no calibration or range, read through raw key t. -/
def emaBundle : SensorBundle :=
  { driver := { className := "DS18B20Sensor", id := some "s1" }, token := "0xe",
    keys := [("t", "k")], smoothing := [("k", 3)] }

/-- A bundle calibrating k with slope 1 and offset minus 50, ranged to
the inclusive band minus 20 to minus 5. -/
def calBundle : SensorBundle :=
  { driver := { className := "DHT22Sensor", pin := some 4 }, token := "0xc",
    keys := [("t", "k")],
    calibration := [("k", { slope := some 1, offset := some (-50) })],
    ranges := [("k", { min := some (-20), max := some (-5) })] }

/-- The same bundle with the calibration entry removed. -/
def noCalBundle : SensorBundle :=
  { driver := { className := "DHT22Sensor", pin := some 4 }, token := "0xc",
    keys := [("t", "k")],
    ranges := [("k", { min := some (-20), max := some (-5) })] }

/-- First bundle of the isolation trio, emitting canonical key ka. -/
def aBundle : SensorBundle :=
  { driver := { className := "A", id := some "a" }, token := "0xa",
    keys := [("x", "ka")] }

/-- Second bundle of the isolation trio, whose read raises. -/
def bBundle : SensorBundle :=
  { driver := { className := "B", id := some "b" }, token := "0xb",
    keys := [("y", "kb")] }

/-- Third bundle of the isolation trio, emitting canonical key kc. -/
def cBundle : SensorBundle :=
  { driver := { className := "C", id := some "c" }, token := "0xd",
    keys := [("z", "kc")] }

/-- A bundle with a five second interval emitting canonical key k7. -/
def intervalBundle : SensorBundle :=
  { driver := { className := "WLevel", id := some "w" }, token := "0xf",
    keys := [("t", "k7")], interval := some 5 }

/-- A bundle with a five second interval whose only value is always out
of range, so a successful read contributes nothing to the output. -/
def dropBundle : SensorBundle :=
  { driver := { className := "WLevel", id := some "d" }, token := "0xd0",
    keys := [("t", "k")],
    ranges := [("k", { min := some 0, max := some 10 })],
    interval := some 5 }

/-- A driver with no id and no path whose pin attribute is present but
zero, hence falsy for the or chain of the identity derivation. -/
def pinZeroBundle : SensorBundle :=
  { driver := { className := "GPIOSensor", pin := some 0 }, token := "0xbeef" }

/-!
Factory fixtures used by the factory claim theorems.
-/

/-- A registered driver class for the factory fixtures: requires a pin
field, accepts pin and id, coerces pin with int (which accepts ints and
bools), and always constructs. -/
def testDriverClass : DriverClass :=
  { name := "TestSensor",
    REQUIRED_KWARGS := some ["pin"],
    ACCEPTED_KWARGS := ["pin", "id"],
    COERCERS := [("pin", fun v =>
      if v.isInt then some (PyVal.intv v.intVal) else Option.none)],
    construct := fun kw => some
      { className := "TestSensor",
        pin :=
          match alistGet kw "pin" with
          | some (PyVal.intv n) => some n
          | _ => Option.none } }

/-- A factory whose registry holds exactly the test driver class under
the type name tempsensor. -/
def testFactory : SensorFactory :=
  { registry := [("tempsensor", testDriverClass)] }

/-- An entry whose metadata validates but whose type is unregistered. -/
def unknownTypeCfg : PyVal := PyVal.dictv
  [("type", PyVal.strv "Bogus"),
   ("keys", PyVal.dictv [("t", PyVal.strv "k")]),
   ("id", PyVal.strv "s9")]

/-- The validated metadata of the unknown type entry. -/
def unknownTypeMeta : ValidatedMeta :=
  { entries := [("type", PyVal.strv "Bogus"),
      ("keys", PyVal.dictv [("t", PyVal.strv "k")]),
      ("id", PyVal.strv "s9")],
    stype := "bogus",
    keys_map := [("t", PyVal.strv "k")],
    calibration_map := [],
    ranges_map := [],
    smoothing_map := [] }

/-- An entry whose calibration references the canonical key zzz, which
is not a value of its keys map. -/
def badCalEntries : List (String × PyVal) :=
  [("type", PyVal.strv "tempsensor"),
   ("keys", PyVal.dictv [("t", PyVal.strv "k")]),
   ("calibration", PyVal.dictv
     [("zzz", PyVal.dictv [("offset", PyVal.intv 0), ("slope", PyVal.intv 1)])]),
   ("pin", PyVal.intv 4)]

/-- The same non-canonical calibration entry as a configuration value. -/
def badCalCfg : PyVal := PyVal.dictv badCalEntries

/-!
Helper lemmas shared by the claim theorems.
-/

/-- Assignment followed by lookup of the same key finds the new value. -/
theorem alistGet_insert_self {κ α : Type} [DecidableEq κ]
    (l : List (κ × α)) (k : κ) (v : α) :
    alistGet (alistInsert l k v) k = some v := by
  induction l with
  | nil => simp [alistInsert, alistGet]
  | cons hd tl ih =>
    by_cases h : hd.1 = k
    · obtain ⟨a, b⟩ := hd
      simp only at h
      simp [alistInsert, alistGet, h]
    · obtain ⟨a, b⟩ := hd
      simp only at h
      simp [alistInsert, alistGet, h, ih]

/-- A bundle whose read raises is a unit for the cycle fold: nothing is
mutated and nothing is contributed. -/
theorem collectStep_error (now : ℚ) (st : CollectorState × List (String × Value))
    (b : SensorBundle) (e : String) :
    collectStep now st (b, Except.error e) = st := by
  by_cases h : is_due st.1.last_read (bundle_id b) now b.interval <;>
    simp [collectStep, h]

/-- A bundle that is not due is a unit for the cycle fold. -/
theorem collectStep_not_due (now : ℚ) (st : CollectorState × List (String × Value))
    (p : SensorBundle × ReadOutcome)
    (h : is_due st.1.last_read (bundle_id p.1) now p.1.interval = false) :
    collectStep now st p = st := by
  simp [collectStep, h]

/-- C1: for every bundle and canonical key with a smoothing window of
at least 2, the smoothing step seeds the EMA store with the first
observed numeric value and outputs it unchanged, and on a subsequent
observation outputs and stores alpha times value plus one minus alpha
times the previous EMA with alpha equal to 2 over window plus 1; for
window 3 and successive raw values 10, 20, 30 on one key the three
collect cycles output 10, 15 and 22.5. -/
theorem ema_smoothing_correct (uid k : String) (v : Value) (w : Int)
    (sm : List (String × Int)) (ema : List ((String × String) × ℚ))
    (hv : v.isNumberLike = true) (hw : 2 ≤ w) (hsm : alistGet sm k = some w) :
    (alistGet ema (uid, k) = Option.none →
      apply_smoothing uid sm ema [(k, v)] =
        ([(k, v)], alistInsert ema (uid, k) v.toRat))
    ∧ (∀ prev : ℚ, alistGet ema (uid, k) = some prev →
      apply_smoothing uid sm ema [(k, v)] =
        ([(k, Value.num (2 / ((w : ℚ) + 1) * v.toRat +
            (1 - 2 / ((w : ℚ) + 1)) * prev))],
         alistInsert ema (uid, k)
           (2 / ((w : ℚ) + 1) * v.toRat + (1 - 2 / ((w : ℚ) + 1)) * prev)))
    ∧ ((as_dict {} 0 [(emaBundle, Except.ok [("t", Value.num 10)])]).2 =
        [("k", Value.num 10)]
      ∧ (as_dict (as_dict {} 0 [(emaBundle, Except.ok [("t", Value.num 10)])]).1 1
          [(emaBundle, Except.ok [("t", Value.num 20)])]).2 =
        [("k", Value.num 15)]
      ∧ (as_dict (as_dict (as_dict {} 0
            [(emaBundle, Except.ok [("t", Value.num 10)])]).1 1
            [(emaBundle, Except.ok [("t", Value.num 20)])]).1 2
          [(emaBundle, Except.ok [("t", Value.num 30)])]).2 =
        [("k", Value.num (45 / 2))]) := by
  have hnl : ¬ (w < 2) := by omega
  refine ⟨?_, ?_, ?_⟩
  · intro h
    simp [apply_smoothing, smoothStep, hsm, hv, hnl, h, alistInsert]
  · intro prev h
    simp [apply_smoothing, smoothStep, hsm, hv, hnl, h, alistInsert]
  · refine ⟨?_, ?_, ?_⟩
    · simp [as_dict, collectStep, bundle_id, truthyStr, truthyInt, is_due,
        map_keys, apply_calibration, apply_smoothing, smoothStep, apply_ranges,
        rangeContains, alistGet, alistInsert, Value.isNumberLike, Value.toRat,
        String.reduceEq, String.reduceAppend, emaBundle]
    · simp [as_dict, collectStep, bundle_id, truthyStr, truthyInt, is_due,
        map_keys, apply_calibration, apply_smoothing, smoothStep, apply_ranges,
        rangeContains, alistGet, alistInsert, Value.isNumberLike, Value.toRat,
        String.reduceEq, String.reduceAppend, emaBundle]
      all_goals try norm_num [alistGet, alistInsert, String.reduceEq, String.reduceAppend]
    · simp [as_dict, collectStep, bundle_id, truthyStr, truthyInt, is_due,
        map_keys, apply_calibration, apply_smoothing, smoothStep, apply_ranges,
        rangeContains, alistGet, alistInsert, Value.isNumberLike, Value.toRat,
        String.reduceEq, String.reduceAppend, emaBundle]
      all_goals try norm_num [alistGet, alistInsert, String.reduceEq, String.reduceAppend]

/-- Witness for C1: the general seeding and recurrence cases at the
concrete key k with window 3 and values 10 then 20. -/
theorem ema_smoothing_correct_witness :
    apply_smoothing "u" [("k", 3)] [] [("k", Value.num 10)] =
      ([("k", Value.num 10)], [(("u", "k"), 10)])
    ∧ apply_smoothing "u" [("k", 3)] [(("u", "k"), 10)] [("k", Value.num 20)] =
      ([("k", Value.num 15)], [(("u", "k"), 15)]) := by
  constructor
  · have h := (ema_smoothing_correct "u" "k" (Value.num 10) 3 [("k", 3)] []
      (by decide) (by decide) rfl).1 rfl
    simpa [Value.toRat, alistInsert] using h
  · have h := (ema_smoothing_correct "u" "k" (Value.num 20) 3 [("k", 3)]
      [(("u", "k"), 10)] (by decide) (by decide) rfl).2.1 10 rfl
    rw [h]
    norm_num [Value.toRat, alistInsert, alistGet]

/-- C2: calibration is applied before range filtering: with calibration
slope 1 and offset minus 50 and range minus 20 to minus 5, a raw 40 is
calibrated to minus 10 and retained, while without the calibration
entry the same raw 40 is dropped by the same range entry. -/
theorem calibration_before_ranging :
    (as_dict {} 0 [(calBundle, Except.ok [("t", Value.num 40)])]).2 =
      [("k", Value.num (-10))]
    ∧ (as_dict {} 0 [(noCalBundle, Except.ok [("t", Value.num 40)])]).2 = [] := by
  constructor
  · simp [as_dict, collectStep, bundle_id, truthyStr, truthyInt, is_due,
        map_keys, apply_calibration, apply_smoothing, smoothStep, apply_ranges,
        rangeContains, alistGet, alistInsert, Value.isNumberLike, Value.toRat,
        String.reduceEq, String.reduceAppend, calBundle]
    all_goals try norm_num [alistGet, alistInsert, String.reduceEq, String.reduceAppend]
  · simp [as_dict, collectStep, bundle_id, truthyStr, truthyInt, is_due,
        map_keys, apply_calibration, apply_smoothing, smoothStep, apply_ranges,
        rangeContains, alistGet, alistInsert, Value.isNumberLike, Value.toRat,
        String.reduceEq, String.reduceAppend, noCalBundle]
    all_goals try norm_num [alistGet, alistInsert, String.reduceEq, String.reduceAppend]

/-- C3: a cycle never raises (the cycle function is total) and a bundle
whose read raises contributes nothing and perturbs nothing: the cycle
over any bundle list containing a raising read equals the cycle with
that bundle removed; with three bundles where only the second raises,
the result holds exactly the first and third bundles values. -/
theorem collect_isolates_read_failures :
    (∀ (st : CollectorState) (now : ℚ)
      (xs ys : List (SensorBundle × ReadOutcome)) (b : SensorBundle) (e : String),
      as_dict st now (xs ++ (b, Except.error e) :: ys) = as_dict st now (xs ++ ys))
    ∧ (as_dict {} 0
        [(aBundle, Except.ok [("x", Value.num 1)]),
         (bBundle, Except.error "read failed"),
         (cBundle, Except.ok [("z", Value.num 3)])]).2 =
      [("ka", Value.num 1), ("kc", Value.num 3)] := by
  constructor
  · intro st now xs ys b e
    simp [as_dict, List.foldl_append, collectStep_error]
  · simp [as_dict, collectStep, bundle_id, truthyStr, truthyInt, is_due,
        map_keys, apply_calibration, apply_smoothing, smoothStep, apply_ranges,
        rangeContains, alistGet, alistInsert, Value.isNumberLike, Value.toRat,
        String.reduceEq, String.reduceAppend, aBundle, bBundle, cBundle]

/-- C4: a raised read leaves the whole collector state untouched for
every state, last read store and EMA store alike, so a stored
timestamp survives a failed read; and a bundle with no recorded last
read is due on every later cycle whatever its interval. -/
theorem failed_read_leaves_state (st : CollectorState) (acc : List (String × Value))
    (b : SensorBundle) (e : String) (now : ℚ) :
    collectStep now (st, acc) (b, Except.error e) = (st, acc)
    ∧ (∀ last : ℚ, alistGet st.last_read (bundle_id b) = some last →
        alistGet (collectStep now (st, acc) (b, Except.error e)).1.last_read
          (bundle_id b) = some last)
    ∧ (alistGet st.last_read (bundle_id b) = Option.none →
        ∀ (i : Option Int) (now2 : ℚ),
          is_due st.last_read (bundle_id b) now2 i = true) := by
  refine ⟨collectStep_error now (st, acc) b e, ?_, ?_⟩
  · intro last hlast
    rw [collectStep_error now (st, acc) b e]
    exact hlast
  · intro h i now2
    cases i with
    | none => simp [is_due]
    | some j => by_cases hj : j ≤ 0 <;> simp [is_due, hj, h]

/-- Witness for C4: a failed read of the second trio bundle leaves a
state holding its timestamp 50 intact, and from an empty state the
bundle stays due with interval 5. -/
theorem failed_read_leaves_state_witness :
    collectStep 0 ({ last_read := [("B:b", 50)], ema := [] }, [])
        (bBundle, Except.error "boom") =
      ({ last_read := [("B:b", 50)], ema := [] }, [])
    ∧ alistGet (collectStep 0 ({ last_read := [("B:b", 50)], ema := [] }, [])
        (bBundle, Except.error "boom")).1.last_read (bundle_id bBundle) = some 50
    ∧ is_due ({} : CollectorState).last_read (bundle_id bBundle) 100 (some 5) = true :=
  ⟨(failed_read_leaves_state { last_read := [("B:b", 50)], ema := [] } []
      bBundle "boom" 0).1,
   (failed_read_leaves_state { last_read := [("B:b", 50)], ema := [] } []
      bBundle "boom" 0).2.1 50 (by rfl),
   (failed_read_leaves_state {} [] bBundle "boom" 0).2.2 (by rfl) (some 5) 100⟩

/-- C5: the due check in full: a missing or non-positive interval is
always due; a positive interval is due on the first ever read and
afterwards exactly when the elapsed time reaches it; a not due bundle
is skipped without any state mutation, so its keys never appear in a
result produced before the interval has elapsed; with interval 5 two
calls in quick succession yield the keys only once. -/
theorem interval_gating (st : CollectorState) (acc : List (String × Value))
    (b : SensorBundle) (r : ReadOutcome) (now : ℚ) :
    is_due st.last_read (bundle_id b) now Option.none = true
    ∧ (∀ i : Int, i ≤ 0 → is_due st.last_read (bundle_id b) now (some i) = true)
    ∧ (∀ i : Int, 1 ≤ i → alistGet st.last_read (bundle_id b) = Option.none →
        is_due st.last_read (bundle_id b) now (some i) = true)
    ∧ (∀ (i : Int) (last : ℚ), 1 ≤ i →
        alistGet st.last_read (bundle_id b) = some last →
        is_due st.last_read (bundle_id b) now (some i) =
          decide (now - last ≥ (i : ℚ)))
    ∧ (is_due st.last_read (bundle_id b) now b.interval = false →
        collectStep now (st, acc) (b, r) = (st, acc))
    ∧ (∀ (i : Int) (last : ℚ), b.interval = some i → 1 ≤ i →
        alistGet st.last_read (bundle_id b) = some last → now - last < (i : ℚ) →
        as_dict st now [(b, r)] = (st, []))
    ∧ (bundle_id intervalBundle = "WLevel:w"
      ∧ as_dict {} 100 [(intervalBundle, Except.ok [("t", Value.num 7)])] =
        ({ last_read := [(bundle_id intervalBundle, 100)], ema := [] },
         [("k7", Value.num 7)])
      ∧ as_dict { last_read := [(bundle_id intervalBundle, 100)], ema := [] } 102
          [(intervalBundle, Except.ok [("t", Value.num 7)])] =
        ({ last_read := [(bundle_id intervalBundle, 100)], ema := [] }, [])) := by
  refine ⟨by simp [is_due], ?_, ?_, ?_, ?_, ?_, ?_, ?_, ?_⟩
  · intro i hi
    simp [is_due, hi]
  · intro i hi hnone
    have hi0 : ¬ (i ≤ 0) := by omega
    simp [is_due, hi0, hnone]
  · intro i last hi hlast
    have hi0 : ¬ (i ≤ 0) := by omega
    simp [is_due, hi0, hlast]
  · intro hfalse
    exact collectStep_not_due now (st, acc) (b, r) hfalse
  · intro i last hbi hi hlast hlt
    have hdue : is_due st.last_read (bundle_id b) now b.interval = false := by
      have hi0 : ¬ (i ≤ 0) := by omega
      have hge : ¬ (now - last ≥ (i : ℚ)) := not_le.mpr hlt
      simp [is_due, hbi, hi0, hlast, hge]
    simp [as_dict, collectStep_not_due now (st, []) (b, r) hdue]
  · exact rfl
  · simp [as_dict, collectStep, is_due, map_keys, apply_calibration,
        apply_smoothing, smoothStep, apply_ranges, rangeContains, alistGet,
        alistInsert, Value.isNumberLike, Value.toRat, String.reduceEq,
        String.reduceAppend, intervalBundle]
  · simp [as_dict, collectStep, is_due, map_keys, apply_calibration,
        apply_smoothing, smoothStep, apply_ranges, rangeContains, alistGet,
        alistInsert, Value.isNumberLike, Value.toRat, String.reduceEq,
        String.reduceAppend, intervalBundle]
    all_goals try norm_num [alistGet, alistInsert, String.reduceEq, String.reduceAppend]

/-- Witness for C5: the gating facts at the state left by a successful
read of the interval 5 bundle at time 100, queried again at time 102. -/
theorem interval_gating_witness :
    is_due [("WLevel:w", (100 : ℚ))] (bundle_id intervalBundle) 102 (some 5) =
      decide ((102 : ℚ) - 100 ≥ (5 : ℚ))
    ∧ as_dict { last_read := [("WLevel:w", 100)], ema := [] } 102
        [(intervalBundle, Except.ok [("t", Value.num 7)])] =
      ({ last_read := [("WLevel:w", 100)], ema := [] }, []) := by
  constructor
  · have h := (interval_gating { last_read := [("WLevel:w", 100)], ema := [] }
      [] intervalBundle (Except.ok [("t", Value.num 7)]) 102).2.2.2.1 5 100
      (by decide) rfl
    simpa using h
  · exact (interval_gating { last_read := [("WLevel:w", 100)], ema := [] }
      [] intervalBundle (Except.ok [("t", Value.num 7)]) 102).2.2.2.2.2.1 5 100
      rfl (by decide) rfl (by norm_num)

/-- C9 counterexample: a driver with no id and no path and a present
pin attribute equal to 0 does not use the pin in its identity: the or
chain skips the falsy pin and falls back to the process-local token. -/
theorem bundle_identity_counterexample :
    pinZeroBundle.driver.id = Option.none
    ∧ pinZeroBundle.driver.path = Option.none
    ∧ pinZeroBundle.driver.pin = some 0
    ∧ bundle_id pinZeroBundle = "GPIOSensor:0xbeef"
    ∧ ¬ bundle_id pinZeroBundle = "GPIOSensor:" ++ toString (0 : Int) := by
  refine ⟨by rfl, by rfl, by rfl, by rfl, ?_⟩
  decide

/-- C9 as amended: the bundle identity is the driver class name joined
to the first truthy attribute among id, path and pin in that priority
order, and the process-local token is used when each of the three is
absent or falsy (an empty id or path string, a zero pin). -/
theorem bundle_identity_priority (b : SensorBundle) :
    (∀ s : String, b.driver.id = some s → ¬ s = "" →
      bundle_id b = b.driver.className ++ ":" ++ s)
    ∧ (∀ p : String, (b.driver.id = Option.none ∨ b.driver.id = some "") →
      b.driver.path = some p → ¬ p = "" →
      bundle_id b = b.driver.className ++ ":" ++ p)
    ∧ (∀ n : Int, (b.driver.id = Option.none ∨ b.driver.id = some "") →
      (b.driver.path = Option.none ∨ b.driver.path = some "") →
      b.driver.pin = some n → ¬ n = 0 →
      bundle_id b = b.driver.className ++ ":" ++ toString n)
    ∧ ((b.driver.id = Option.none ∨ b.driver.id = some "") →
      (b.driver.path = Option.none ∨ b.driver.path = some "") →
      (b.driver.pin = Option.none ∨ b.driver.pin = some 0) →
      bundle_id b = b.driver.className ++ ":" ++ b.token) := by
  refine ⟨?_, ?_, ?_, ?_⟩
  · intro s hs hne
    simp [bundle_id, truthyStr, hs, hne]
  · intro p hid hp hne
    rcases hid with h1 | h1 <;> simp [bundle_id, truthyStr, h1, hp, hne]
  · intro n hid hpath hpin hne
    rcases hid with h1 | h1 <;> rcases hpath with h2 | h2 <;>
      simp [bundle_id, truthyStr, truthyInt, h1, h2, hpin, hne]
  · intro hid hpath hpin
    rcases hid with h1 | h1 <;> rcases hpath with h2 | h2 <;>
      rcases hpin with h3 | h3 <;>
      simp [bundle_id, truthyStr, truthyInt, h1, h2, h3]

/-- Witness for the amended C9 at a truthy id and at an all-falsy
attribute set. -/
theorem bundle_identity_priority_witness :
    bundle_id aBundle = "A" ++ ":" ++ "a"
    ∧ bundle_id pinZeroBundle = "GPIOSensor" ++ ":" ++ pinZeroBundle.token :=
  ⟨(bundle_identity_priority aBundle).1 "a" (by rfl) (by decide),
   (bundle_identity_priority pinZeroBundle).2.2.2 (Or.inl (by rfl)) (Or.inl (by rfl))
     (Or.inr (by rfl))⟩

/-- C10: a due bundle whose read returns has its last read time set to
the cycle timestamp even when every value is dropped downstream, so it
is not due again before its interval elapses; success for gating means
the read returned, not that any key survived. -/
theorem successful_read_advances_last_read (st : CollectorState)
    (acc : List (String × Value)) (b : SensorBundle) (now : ℚ)
    (raw : List (String × Value))
    (h : is_due st.last_read (bundle_id b) now b.interval = true) :
    alistGet (collectStep now (st, acc) (b, Except.ok raw)).1.last_read
        (bundle_id b) = some now
    ∧ (∀ (i : Int) (now2 : ℚ), b.interval = some i → 1 ≤ i →
        now2 - now < (i : ℚ) →
        is_due (collectStep now (st, acc) (b, Except.ok raw)).1.last_read
          (bundle_id b) now2 b.interval = false)
    ∧ (bundle_id dropBundle = "WLevel:d"
      ∧ as_dict {} 100 [(dropBundle, Except.ok [("t", Value.num 40)])] =
        ({ last_read := [(bundle_id dropBundle, 100)], ema := [] }, [])) := by
  have hstep : (collectStep now (st, acc) (b, Except.ok raw)).1.last_read
      = alistInsert st.last_read (bundle_id b) now := by
    simp [collectStep, h]
  refine ⟨?_, ?_, by rfl, ?_⟩
  · rw [hstep]
    exact alistGet_insert_self st.last_read (bundle_id b) now
  · intro i now2 hbi hi hlt
    rw [hstep, hbi]
    have hi0 : ¬ (i ≤ 0) := by omega
    have hfound := alistGet_insert_self st.last_read (bundle_id b) now
    have hge : ¬ ((i : ℚ) ≤ now2 - now) := not_le.mpr hlt
    simp [is_due, hi0, hfound, hge]
  · simp [as_dict, collectStep, is_due, map_keys, apply_calibration,
      apply_smoothing, smoothStep, apply_ranges, rangeContains, alistGet,
      alistInsert, Value.isNumberLike, Value.toRat, String.reduceEq,
      String.reduceAppend, dropBundle]
    all_goals try norm_num [alistGet, alistInsert, String.reduceEq, String.reduceAppend]

/-- Witness for C10: the due check discharged on the first ever read
of the out-of-range bundle at time 100. -/
theorem successful_read_advances_last_read_witness :
    alistGet (collectStep 100 ({}, []) (dropBundle,
        Except.ok [("t", Value.num 40)])).1.last_read (bundle_id dropBundle) =
      some 100
    ∧ is_due (collectStep 100 ({}, []) (dropBundle,
        Except.ok [("t", Value.num 40)])).1.last_read (bundle_id dropBundle)
        102 dropBundle.interval = false := by
  refine ⟨(successful_read_advances_last_read {} [] dropBundle 100
    [("t", Value.num 40)] (by rfl)).1, ?_⟩
  exact (successful_read_advances_last_read {} [] dropBundle 100
    [("t", Value.num 40)] (by rfl)).2.1 5 102 (by rfl) (by decide) (by norm_num)

/-- C7: when the metadata of an entry passes steps 1 to 6 but the
normalized type resolves to nothing in the registry, build fails with
UnknownSensorTypeError carrying the attempted type, the full list of
currently registered type names, and the supplied id of the entry. -/
theorem build_unknown_type_error (f : SensorFactory) (cfg : PyVal)
    (m : ValidatedMeta) (hmeta : validateMeta cfg = Except.ok m)
    (hreg : alistGet f.registry m.stype = Option.none) :
    build f cfg = Except.error (BuildExc.unknownSensorType m.stype
      (f.registry.map Prod.fst) (pyGet m.entries "id")) := by
  simp [build, hmeta, hreg, Except.bind]

/-- Witness for C7 at the unregistered type entry against the concrete
factory, whose single registered type name is listed in the error. -/
theorem build_unknown_type_error_witness :
    build testFactory unknownTypeCfg = Except.error
      (BuildExc.unknownSensorType "bogus" ["tempsensor"] (PyVal.strv "s9")) :=
  build_unknown_type_error testFactory unknownTypeCfg unknownTypeMeta
    (by rfl) (by rfl)

/-- C8 counterexample: a per-entry failure can escape build_all.  For a
list containing the non-mapping entry 42, build on the entry raises an
AttributeError, and the logging line of the handler, which reads fields
off the entry with dict.get, itself raises, so build_all propagates an
exception that is not the top-level shape error. -/
theorem build_all_nonmapping_entry_counterexample :
    build_all testFactory (PyVal.listv [PyVal.intv 42]) =
      Except.error BuildExc.otherExc := by rfl

/-- C8 as amended: for a list input, or a dict input whose sensors
member is a list, with every entry a mapping, build_all returns exactly
the bundles of the entries whose build succeeded, whatever build raised
on the others; a top-level input that is neither a list nor a dict, or
a dict without a sensors member, propagates the fatal shape error, and
a dict whose sensors member is not a list propagates the invalid
sensors error.  (A non-mapping entry inside the list instead makes the
per-entry error handler itself raise.) -/
theorem build_all_skips_failing_dict_entries (f : SensorFactory) :
    (∀ entries : List PyVal, (∀ cfg ∈ entries, ∃ d, cfg = PyVal.dictv d) →
      build_all f (PyVal.listv entries) =
        Except.ok (entries.filterMap (fun cfg => (build f cfg).toOption)))
    ∧ (∀ (d : List (String × PyVal)) (entries : List PyVal),
        alistGet d "sensors" = some (PyVal.listv entries) →
        (∀ cfg ∈ entries, ∃ dd, cfg = PyVal.dictv dd) →
        build_all f (PyVal.dictv d) =
          Except.ok (entries.filterMap (fun cfg => (build f cfg).toOption)))
    ∧ (∀ config : PyVal, (∀ d, ¬ config = PyVal.dictv d) →
        (∀ l, ¬ config = PyVal.listv l) →
        build_all f config =
          Except.error (BuildExc.invalidSensorConfig ConfigErr.badTopLevelShape))
    ∧ (∀ d : List (String × PyVal), alistGet d "sensors" = Option.none →
        build_all f (PyVal.dictv d) =
          Except.error (BuildExc.invalidSensorConfig ConfigErr.badTopLevelShape))
    ∧ (∀ (d : List (String × PyVal)) (v : PyVal),
        alistGet d "sensors" = some v → (∀ l, ¬ v = PyVal.listv l) →
        build_all f (PyVal.dictv d) =
          Except.error (BuildExc.invalidSensorConfig ConfigErr.sensorsNotList)) := by
  have hentries : ∀ entries : List PyVal,
      (∀ cfg ∈ entries, ∃ d, cfg = PyVal.dictv d) →
      buildEntries f entries =
        Except.ok (entries.filterMap (fun cfg => (build f cfg).toOption)) := by
    intro entries
    induction entries with
    | nil => intro _; rfl
    | cons hd tl ih =>
      intro hall
      obtain ⟨d, hd2⟩ := hall hd (by simp)
      subst hd2
      have htl := ih (fun cfg hc => hall cfg (by simp [hc]))
      cases hb : build f (PyVal.dictv d) with
      | ok b => simp [buildEntries, hb, htl, Except.toOption, Except.map,
          List.filterMap_cons]
      | error e => simp [buildEntries, hb, htl, Except.toOption, Except.map,
          List.filterMap_cons]
  refine ⟨?_, ?_, ?_, ?_, ?_⟩
  · intro entries hall
    simpa [build_all] using hentries entries hall
  · intro d entries hs hall
    have := hentries entries hall
    simp [build_all, hs, pyGet, this]
  · intro config hd hl
    cases config with
    | dictv d => exact absurd rfl (hd d)
    | listv l => exact absurd rfl (hl l)
    | _ => rfl
  · intro d hnone
    simp [build_all, hnone]
  · intro d v hv hnl
    cases v
    case listv l => exact absurd rfl (hnl l)
    all_goals simp [build_all, hv, pyGet]

/-- Witness for the amended C8: a list holding one failing mapping
entry yields the empty bundle list, and a bare string input is the
fatal shape error. -/
theorem build_all_skips_failing_dict_entries_witness :
    build_all testFactory (PyVal.listv [unknownTypeCfg]) = Except.ok []
    ∧ build_all testFactory (PyVal.strv "oops") =
      Except.error (BuildExc.invalidSensorConfig ConfigErr.badTopLevelShape)
    ∧ build_all testFactory (PyVal.dictv [("other", PyVal.intv 1)]) =
      Except.error (BuildExc.invalidSensorConfig ConfigErr.badTopLevelShape)
    ∧ build_all testFactory (PyVal.dictv [("sensors", PyVal.intv 5)]) =
      Except.error (BuildExc.invalidSensorConfig ConfigErr.sensorsNotList) := by
  refine ⟨?_, ?_, ?_, ?_⟩
  · have h := (build_all_skips_failing_dict_entries testFactory).1 [unknownTypeCfg]
      (by intro cfg hc; simp at hc; subst hc; exact ⟨_, rfl⟩)
    rw [h]
    rfl
  · exact (build_all_skips_failing_dict_entries testFactory).2.2.1 (PyVal.strv "oops")
      (by intro d h; cases h) (by intro l h; cases h)
  · exact (build_all_skips_failing_dict_entries testFactory).2.2.2.1
      [("other", PyVal.intv 1)] (by rfl)
  · exact (build_all_skips_failing_dict_entries testFactory).2.2.2.2
      [("sensors", PyVal.intv 5)] (PyVal.intv 5) (by rfl)
      (by intro l h; cases h)

/-!
Validation lemmas for C6: what each metadata validator guarantees on
success, and which structured reasons each can produce on failure.
-/

/-- A successful calibration item check certifies a canonical key. -/
theorem checkCalPair_ok (canonical : List PyVal) (p : String × PyVal)
    (h : checkCalPair canonical p = Except.ok ()) :
    canonMember canonical p.1 = true := by
  unfold checkCalPair at h
  split at h
  · simp at h
  · split at h
    · simp at h
    · rename_i hcanon
      simpa using hcanon

/-- A failing calibration item check fails with an invalid
configuration reason; the non-canonical reason certifies the key. -/
theorem checkCalPair_err (canonical : List PyVal) (p : String × PyVal)
    (e : BuildExc) (h : checkCalPair canonical p = Except.error e) :
    ∃ r, e = BuildExc.invalidSensorConfig r
      ∧ (r = ConfigErr.calKeyNotCanonical → canonMember canonical p.1 = false)
      ∧ ¬ r = ConfigErr.rangeKeyNotCanonical
      ∧ ¬ r = ConfigErr.smoothKeyNotCanonical := by
  unfold checkCalPair at h
  split at h
  · exact ⟨ConfigErr.calKeyBlank, (by simp_all), (by intro hr; cases hr),
      (by intro hr; cases hr), (by intro hr; cases hr)⟩
  · split at h
    · rename_i hcanon
      refine ⟨ConfigErr.calKeyNotCanonical, (by simp_all), ?_,
        (by intro hr; cases hr), (by intro hr; cases hr)⟩
      intro _
      simpa using hcanon
    · split at h
      · split at h
        · exact ⟨ConfigErr.calMissingFields, (by simp_all), (by intro hr; cases hr),
            (by intro hr; cases hr), (by intro hr; cases hr)⟩
        · split at h
          · exact ⟨ConfigErr.calNotNumeric, (by simp_all), (by intro hr; cases hr),
              (by intro hr; cases hr), (by intro hr; cases hr)⟩
          · simp at h
      · exact ⟨ConfigErr.calNotDict, (by simp_all), (by intro hr; cases hr),
          (by intro hr; cases hr), (by intro hr; cases hr)⟩

/-- A successful calibration map check certifies every key canonical. -/
theorem checkCalMap_ok (canonical : List PyVal) (l : List (String × PyVal))
    (h : checkCalMap canonical l = Except.ok ()) :
    ∀ p ∈ l, canonMember canonical p.1 = true := by
  induction l with
  | nil => intro p hp; cases hp
  | cons hd tl ih =>
    intro p hp
    cases hpair : checkCalPair canonical hd with
    | error e => simp [checkCalMap, hpair, Except.bind] at h
    | ok u =>
      cases u
      simp only [checkCalMap, hpair, Except.bind] at h
      rcases List.mem_cons.mp hp with h1 | h1
      · subst h1
        exact checkCalPair_ok canonical p hpair
      · exact ih h p h1

/-- A failing calibration map check fails with an invalid reason, and
the non-canonical reason certifies a non-canonical key in the map. -/
theorem checkCalMap_err (canonical : List PyVal) (l : List (String × PyVal))
    (e : BuildExc) (h : checkCalMap canonical l = Except.error e) :
    ∃ r, e = BuildExc.invalidSensorConfig r
      ∧ (r = ConfigErr.calKeyNotCanonical →
          ∃ p ∈ l, canonMember canonical p.1 = false)
      ∧ ¬ r = ConfigErr.rangeKeyNotCanonical
      ∧ ¬ r = ConfigErr.smoothKeyNotCanonical := by
  induction l with
  | nil => simp [checkCalMap] at h
  | cons hd tl ih =>
    cases hpair : checkCalPair canonical hd with
    | error e2 =>
      simp only [checkCalMap, hpair, Except.bind] at h
      obtain ⟨r, hr1, hr2, hr3, hr4⟩ :=
        checkCalPair_err canonical hd e2 hpair
      cases h
      exact ⟨r, hr1, fun hc => ⟨hd, by simp, hr2 hc⟩, hr3, hr4⟩
    | ok u =>
      cases u
      simp only [checkCalMap, hpair, Except.bind] at h
      obtain ⟨r, hr1, hr2, hr3, hr4⟩ := ih h
      exact ⟨r, hr1, fun hc => by
        obtain ⟨p, hp1, hp2⟩ := hr2 hc
        exact ⟨p, by simp [hp1], hp2⟩, hr3, hr4⟩

/-- A successful ranges item check certifies a canonical key. -/
theorem checkRangePair_ok (canonical : List PyVal) (p : String × PyVal)
    (h : checkRangePair canonical p = Except.ok ()) :
    canonMember canonical p.1 = true := by
  unfold checkRangePair at h
  split at h
  · simp at h
  · split at h
    · simp at h
    · rename_i hcanon
      simpa using hcanon

/-- A failing ranges item check fails with an invalid configuration
reason; the non-canonical reason certifies the key. -/
theorem checkRangePair_err (canonical : List PyVal) (p : String × PyVal)
    (e : BuildExc) (h : checkRangePair canonical p = Except.error e) :
    ∃ r, e = BuildExc.invalidSensorConfig r
      ∧ (r = ConfigErr.rangeKeyNotCanonical → canonMember canonical p.1 = false)
      ∧ ¬ r = ConfigErr.calKeyNotCanonical
      ∧ ¬ r = ConfigErr.smoothKeyNotCanonical := by
  unfold checkRangePair at h
  split at h
  · exact ⟨ConfigErr.rangeKeyBlank, (by simp_all), (by intro hr; cases hr),
      (by intro hr; cases hr), (by intro hr; cases hr)⟩
  · split at h
    · rename_i hcanon
      refine ⟨ConfigErr.rangeKeyNotCanonical, (by simp_all), ?_,
        (by intro hr; cases hr), (by intro hr; cases hr)⟩
      intro _
      simpa using hcanon
    · split at h
      · split at h
        · exact ⟨ConfigErr.rangeMissingFields, (by simp_all),
            (by intro hr; cases hr), (by intro hr; cases hr), (by intro hr; cases hr)⟩
        · split at h
          · exact ⟨ConfigErr.rangeNotNumeric, (by simp_all),
              (by intro hr; cases hr), (by intro hr; cases hr), (by intro hr; cases hr)⟩
          · split at h
            · exact ⟨ConfigErr.rangeMinNotLtMax, (by simp_all),
                (by intro hr; cases hr), (by intro hr; cases hr), (by intro hr; cases hr)⟩
            · simp at h
      · exact ⟨ConfigErr.rangeNotDict, (by simp_all), (by intro hr; cases hr),
          (by intro hr; cases hr), (by intro hr; cases hr)⟩

/-- A successful ranges map check certifies every key canonical. -/
theorem checkRangeMap_ok (canonical : List PyVal) (l : List (String × PyVal))
    (h : checkRangeMap canonical l = Except.ok ()) :
    ∀ p ∈ l, canonMember canonical p.1 = true := by
  induction l with
  | nil => intro p hp; cases hp
  | cons hd tl ih =>
    intro p hp
    cases hpair : checkRangePair canonical hd with
    | error e => simp [checkRangeMap, hpair, Except.bind] at h
    | ok u =>
      cases u
      simp only [checkRangeMap, hpair, Except.bind] at h
      rcases List.mem_cons.mp hp with h1 | h1
      · subst h1
        exact checkRangePair_ok canonical p hpair
      · exact ih h p h1

/-- A failing ranges map check fails with an invalid reason, and the
non-canonical reason certifies a non-canonical key in the map. -/
theorem checkRangeMap_err (canonical : List PyVal) (l : List (String × PyVal))
    (e : BuildExc) (h : checkRangeMap canonical l = Except.error e) :
    ∃ r, e = BuildExc.invalidSensorConfig r
      ∧ (r = ConfigErr.rangeKeyNotCanonical →
          ∃ p ∈ l, canonMember canonical p.1 = false)
      ∧ ¬ r = ConfigErr.calKeyNotCanonical
      ∧ ¬ r = ConfigErr.smoothKeyNotCanonical := by
  induction l with
  | nil => simp [checkRangeMap] at h
  | cons hd tl ih =>
    cases hpair : checkRangePair canonical hd with
    | error e2 =>
      simp only [checkRangeMap, hpair, Except.bind] at h
      obtain ⟨r, hr1, hr2, hr3, hr4⟩ :=
        checkRangePair_err canonical hd e2 hpair
      cases h
      exact ⟨r, hr1, fun hc => ⟨hd, by simp, hr2 hc⟩, hr3, hr4⟩
    | ok u =>
      cases u
      simp only [checkRangeMap, hpair, Except.bind] at h
      obtain ⟨r, hr1, hr2, hr3, hr4⟩ := ih h
      exact ⟨r, hr1, fun hc => by
        obtain ⟨p, hp1, hp2⟩ := hr2 hc
        exact ⟨p, by simp [hp1], hp2⟩, hr3, hr4⟩

/-- A successful smoothing item check certifies a canonical key. -/
theorem checkSmoothPair_ok (canonical : List PyVal) (p : String × PyVal)
    (h : checkSmoothPair canonical p = Except.ok ()) :
    canonMember canonical p.1 = true := by
  unfold checkSmoothPair at h
  split at h
  · simp at h
  · split at h
    · simp at h
    · rename_i hcanon
      simpa using hcanon

/-- A failing smoothing item check fails with an invalid configuration
reason; the non-canonical reason certifies the key. -/
theorem checkSmoothPair_err (canonical : List PyVal) (p : String × PyVal)
    (e : BuildExc) (h : checkSmoothPair canonical p = Except.error e) :
    ∃ r, e = BuildExc.invalidSensorConfig r
      ∧ (r = ConfigErr.smoothKeyNotCanonical → canonMember canonical p.1 = false)
      ∧ ¬ r = ConfigErr.calKeyNotCanonical
      ∧ ¬ r = ConfigErr.rangeKeyNotCanonical := by
  unfold checkSmoothPair at h
  split at h
  · exact ⟨ConfigErr.smoothKeyBlank, (by simp_all), (by intro hr; cases hr),
      (by intro hr; cases hr), (by intro hr; cases hr)⟩
  · split at h
    · rename_i hcanon
      refine ⟨ConfigErr.smoothKeyNotCanonical, (by simp_all), ?_,
        (by intro hr; cases hr), (by intro hr; cases hr)⟩
      intro _
      simpa using hcanon
    · split at h
      · exact ⟨ConfigErr.smoothBadValue, (by simp_all), (by intro hr; cases hr),
          (by intro hr; cases hr), (by intro hr; cases hr)⟩
      · split at h
        · exact ⟨ConfigErr.smoothBadValue, (by simp_all), (by intro hr; cases hr),
            (by intro hr; cases hr), (by intro hr; cases hr)⟩
        · simp at h

/-- A successful smoothing map check certifies every key canonical. -/
theorem checkSmoothMap_ok (canonical : List PyVal) (l : List (String × PyVal))
    (h : checkSmoothMap canonical l = Except.ok ()) :
    ∀ p ∈ l, canonMember canonical p.1 = true := by
  induction l with
  | nil => intro p hp; cases hp
  | cons hd tl ih =>
    intro p hp
    cases hpair : checkSmoothPair canonical hd with
    | error e => simp [checkSmoothMap, hpair, Except.bind] at h
    | ok u =>
      cases u
      simp only [checkSmoothMap, hpair, Except.bind] at h
      rcases List.mem_cons.mp hp with h1 | h1
      · subst h1
        exact checkSmoothPair_ok canonical p hpair
      · exact ih h p h1

/-- A failing smoothing map check fails with an invalid reason, and the
non-canonical reason certifies a non-canonical key in the map. -/
theorem checkSmoothMap_err (canonical : List PyVal) (l : List (String × PyVal))
    (e : BuildExc) (h : checkSmoothMap canonical l = Except.error e) :
    ∃ r, e = BuildExc.invalidSensorConfig r
      ∧ (r = ConfigErr.smoothKeyNotCanonical →
          ∃ p ∈ l, canonMember canonical p.1 = false)
      ∧ ¬ r = ConfigErr.calKeyNotCanonical
      ∧ ¬ r = ConfigErr.rangeKeyNotCanonical := by
  induction l with
  | nil => simp [checkSmoothMap] at h
  | cons hd tl ih =>
    cases hpair : checkSmoothPair canonical hd with
    | error e2 =>
      simp only [checkSmoothMap, hpair, Except.bind] at h
      obtain ⟨r, hr1, hr2, hr3, hr4⟩ :=
        checkSmoothPair_err canonical hd e2 hpair
      cases h
      exact ⟨r, hr1, fun hc => ⟨hd, by simp, hr2 hc⟩, hr3, hr4⟩
    | ok u =>
      cases u
      simp only [checkSmoothMap, hpair, Except.bind] at h
      obtain ⟨r, hr1, hr2, hr3, hr4⟩ := ih h
      exact ⟨r, hr1, fun hc => by
        obtain ⟨p, hp1, hp2⟩ := hr2 hc
        exact ⟨p, by simp [hp1], hp2⟩, hr3, hr4⟩

/-- A failing type extraction is the invalid type reason. -/
theorem checkType_err (entries : List (String × PyVal)) (e : BuildExc)
    (h : checkType entries = Except.error e) :
    e = BuildExc.invalidSensorConfig ConfigErr.badType := by
  unfold checkType at h
  split at h
  · split at h
    · simp_all
    · simp at h
  · simp_all

/-- The keys check under a dict keys field: empty is the invalid keys
reason, otherwise the map is returned. -/
theorem checkKeys_eq (entries : List (String × PyVal))
    (km : List (String × PyVal)) (hkeys : pyGet entries "keys" = PyVal.dictv km) :
    checkKeys entries =
      if km.isEmpty then Except.error (BuildExc.invalidSensorConfig ConfigErr.badKeys)
      else Except.ok km := by
  simp [checkKeys, hkeys]

/-- A failing interval check is the invalid interval reason. -/
theorem checkInterval_err (entries : List (String × PyVal)) (e : BuildExc)
    (h : checkInterval entries = Except.error e) :
    e = BuildExc.invalidSensorConfig ConfigErr.badInterval := by
  unfold checkInterval at h
  split at h
  · simp at h
  · split at h
    · simp_all
    · simp at h

/-- A failing coercion pass is an invalid configuration error naming
the coerced field. -/
theorem applyCoercers_err (coercers : List (String × (PyVal → Option PyVal)))
    (filtered : List (String × PyVal)) (e : BuildExc)
    (h : applyCoercers coercers filtered = Except.error e) :
    ∃ fl, e = BuildExc.invalidSensorConfig (ConfigErr.coercionFailed fl) := by
  induction coercers generalizing filtered with
  | nil => simp [applyCoercers] at h
  | cons hd tl ih =>
    unfold applyCoercers at h
    split at h
    · exact ih filtered h
    · split at h
      · exact ih _ h
      · refine ⟨hd.1, ?_⟩
        simp_all

/-- A failing required-field check is one of the three invalid
configuration reasons of step 11. -/
theorem checkRequired_err (dc : DriverClass) (filtered : List (String × PyVal))
    (e : BuildExc) (h : checkRequired dc filtered = Except.error e) :
    e = BuildExc.invalidSensorConfig ConfigErr.requiredNotAccepted
    ∨ e = BuildExc.invalidSensorConfig ConfigErr.missingRequired
    ∨ e = BuildExc.invalidSensorConfig ConfigErr.anyOfUnsatisfied := by
  cases hrk : dc.REQUIRED_KWARGS with
  | some req =>
    simp only [checkRequired, hrk] at h
    split at h
    · simp at h
    · split at h
      · exact Or.inl (by simp_all)
      · split at h
        · exact Or.inr (Or.inl (by simp_all))
        · simp at h
  | none =>
    simp only [checkRequired, hrk] at h
    cases hrao : dc.REQUIRED_ANY_OF with
    | some groups =>
      rw [hrao] at h
      split at h
      · split at h
        · simp at h
        · split at h
          · simp at h
          · exact Or.inr (Or.inr (by simp_all))
      · simp_all
    | none =>
      rw [hrao] at h
      simp at h

/-- Any error of steps 1 to 6, under mapping-shaped metadata fields,
is an invalid configuration error. -/
theorem validateMeta_err_invalid (entries km cm rm sm : List (String × PyVal))
    (hkeys : pyGet entries "keys" = PyVal.dictv km)
    (hcal : getMapField entries "calibration" = Except.ok cm)
    (hrng : getMapField entries "ranges" = Except.ok rm)
    (hsm : getMapField entries "smoothing" = Except.ok sm)
    (e : BuildExc)
    (h : validateMeta (PyVal.dictv entries) = Except.error e) :
    ∃ r, e = BuildExc.invalidSensorConfig r := by
  cases hct : checkType entries with
  | error e0 =>
    simp only [validateMeta, hct, Except.bind] at h
    cases h
    exact ⟨ConfigErr.badType, checkType_err entries e hct⟩
  | ok stype =>
    rw [validateMeta] at h
    rw [hct] at h
    simp only [Except.bind] at h
    rw [checkKeys_eq entries km hkeys] at h
    by_cases hkm : km.isEmpty
    · rw [if_pos hkm] at h
      cases h
      exact ⟨ConfigErr.badKeys, rfl⟩
    · rw [if_neg hkm] at h
      simp only [hcal, hrng, hsm, Except.bind] at h
      cases hc : checkCalMap (km.map Prod.snd) cm with
      | error ec =>
        rw [hc] at h
        cases h
        obtain ⟨r, hr, _⟩ := checkCalMap_err _ cm _ hc
        exact ⟨r, hr⟩
      | ok u =>
        cases u
        rw [hc] at h
        simp only [Except.bind] at h
        cases hr2 : checkRangeMap (km.map Prod.snd) rm with
        | error er =>
          rw [hr2] at h
          cases h
          obtain ⟨r, hr, _⟩ := checkRangeMap_err _ rm _ hr2
          exact ⟨r, hr⟩
        | ok u =>
          cases u
          rw [hr2] at h
          simp only [Except.bind] at h
          cases hs2 : checkSmoothMap (km.map Prod.snd) sm with
          | error es =>
            rw [hs2] at h
            cases h
            obtain ⟨r, hr, _⟩ := checkSmoothMap_err _ sm _ hs2
            exact ⟨r, hr⟩
          | ok u =>
            cases u
            rw [hs2] at h
            simp only [Except.bind] at h
            cases hi : checkInterval entries with
            | error ei =>
              rw [hi] at h
              cases h
              exact ⟨ConfigErr.badInterval, checkInterval_err entries e hi⟩
            | ok u =>
              cases u
              rw [hi] at h
              simp at h

/-- Validated metadata certifies every calibration, ranges and
smoothing key canonical. -/
theorem validateMeta_ok_canonical (entries km cm rm sm : List (String × PyVal))
    (hkeys : pyGet entries "keys" = PyVal.dictv km)
    (hcal : getMapField entries "calibration" = Except.ok cm)
    (hrng : getMapField entries "ranges" = Except.ok rm)
    (hsm : getMapField entries "smoothing" = Except.ok sm)
    (m : ValidatedMeta)
    (h : validateMeta (PyVal.dictv entries) = Except.ok m) :
    ∀ p : String × PyVal, (p ∈ cm ∨ p ∈ rm ∨ p ∈ sm) →
      canonMember (km.map Prod.snd) p.1 = true := by
  cases hct : checkType entries with
  | error e0 => simp only [validateMeta, hct, Except.bind] at h; cases h
  | ok stype =>
    rw [validateMeta] at h
    rw [hct] at h
    simp only [Except.bind] at h
    rw [checkKeys_eq entries km hkeys] at h
    by_cases hkm : km.isEmpty
    · rw [if_pos hkm] at h
      cases h
    · rw [if_neg hkm] at h
      simp only [hcal, hrng, hsm, Except.bind] at h
      cases hc : checkCalMap (km.map Prod.snd) cm with
      | error ec => rw [hc] at h; cases h
      | ok u =>
        cases u
        rw [hc] at h
        simp only [Except.bind] at h
        cases hr2 : checkRangeMap (km.map Prod.snd) rm with
        | error er => rw [hr2] at h; cases h
        | ok u =>
          cases u
          rw [hr2] at h
          simp only [Except.bind] at h
          cases hs2 : checkSmoothMap (km.map Prod.snd) sm with
          | error es => rw [hs2] at h; cases h
          | ok u =>
            cases u
            intro p hp
            rcases hp with h1 | h1 | h1
            · exact checkCalMap_ok _ cm hc p h1
            · exact checkRangeMap_ok _ rm hr2 p h1
            · exact checkSmoothMap_ok _ sm hs2 p h1

/-- A steps 1 to 6 failure carrying one of the three non-canonical-key
reasons certifies a non-canonical key in one of the three maps. -/
theorem validateMeta_err_trio (entries km cm rm sm : List (String × PyVal))
    (hkeys : pyGet entries "keys" = PyVal.dictv km)
    (hcal : getMapField entries "calibration" = Except.ok cm)
    (hrng : getMapField entries "ranges" = Except.ok rm)
    (hsm : getMapField entries "smoothing" = Except.ok sm)
    (r : ConfigErr)
    (h : validateMeta (PyVal.dictv entries) =
      Except.error (BuildExc.invalidSensorConfig r))
    (htrio : r = ConfigErr.calKeyNotCanonical
      ∨ r = ConfigErr.rangeKeyNotCanonical
      ∨ r = ConfigErr.smoothKeyNotCanonical) :
    (∃ p ∈ cm, canonMember (km.map Prod.snd) p.1 = false)
    ∨ (∃ p ∈ rm, canonMember (km.map Prod.snd) p.1 = false)
    ∨ (∃ p ∈ sm, canonMember (km.map Prod.snd) p.1 = false) := by
  cases hct : checkType entries with
  | error e0 =>
    simp only [validateMeta, hct, Except.bind] at h
    cases h
    have := checkType_err entries _ hct
    rcases htrio with h1 | h1 | h1 <;> simp_all
  | ok stype =>
    rw [validateMeta] at h
    rw [hct] at h
    simp only [Except.bind] at h
    rw [checkKeys_eq entries km hkeys] at h
    by_cases hkm : km.isEmpty
    · rw [if_pos hkm] at h
      rcases htrio with h1 | h1 | h1 <;> simp_all
    · rw [if_neg hkm] at h
      simp only [hcal, hrng, hsm, Except.bind] at h
      cases hc : checkCalMap (km.map Prod.snd) cm with
      | error ec =>
        rw [hc] at h
        cases h
        obtain ⟨r2, hr1, hr2, hr3, hr4⟩ := checkCalMap_err _ cm _ hc
        have hrr : r2 = r := by
          have := hr1
          simp_all
        subst hrr
        rcases htrio with h1 | h1 | h1
        · exact Or.inl (hr2 h1)
        · exact absurd h1 hr3
        · exact absurd h1 hr4
      | ok u =>
        cases u
        rw [hc] at h
        simp only [Except.bind] at h
        cases hr5 : checkRangeMap (km.map Prod.snd) rm with
        | error er =>
          rw [hr5] at h
          cases h
          obtain ⟨r2, hr1, hr2, hr3, hr4⟩ := checkRangeMap_err _ rm _ hr5
          have hrr : r2 = r := by
            have := hr1
            simp_all
          subst hrr
          rcases htrio with h1 | h1 | h1
          · exact absurd h1 hr3
          · exact Or.inr (Or.inl (hr2 h1))
          · exact absurd h1 hr4
        | ok u =>
          cases u
          rw [hr5] at h
          simp only [Except.bind] at h
          cases hs5 : checkSmoothMap (km.map Prod.snd) sm with
          | error es =>
            rw [hs5] at h
            cases h
            obtain ⟨r2, hr1, hr2, hr3, hr4⟩ := checkSmoothMap_err _ sm _ hs5
            have hrr : r2 = r := by
              have := hr1
              simp_all
            subst hrr
            rcases htrio with h1 | h1 | h1
            · exact absurd h1 hr3
            · exact absurd h1 hr4
            · exact Or.inr (Or.inr (hr2 h1))
          | ok u =>
            cases u
            rw [hs5] at h
            simp only [Except.bind] at h
            cases hi : checkInterval entries with
            | error ei =>
              rw [hi] at h
              cases h
              have := checkInterval_err entries _ hi
              rcases htrio with h1 | h1 | h1 <;> simp_all
            | ok u =>
              cases u
              rw [hi] at h
              simp at h

/-- A metadata failure propagates out of build unchanged. -/
theorem build_of_validateMeta_err (f : SensorFactory) (cfg : PyVal)
    (e : BuildExc) (h : validateMeta cfg = Except.error e) :
    build f cfg = Except.error e := by
  simp [build, h, Except.bind]

/-- A build failure carrying one of the three non-canonical-key reasons
can only originate in the metadata validation of steps 1 to 6: the
driver resolution and construction steps fail with other payloads. -/
theorem build_err_trio_source (f : SensorFactory) (cfg : PyVal) (r : ConfigErr)
    (h : build f cfg = Except.error (BuildExc.invalidSensorConfig r))
    (htrio : r = ConfigErr.calKeyNotCanonical
      ∨ r = ConfigErr.rangeKeyNotCanonical
      ∨ r = ConfigErr.smoothKeyNotCanonical) :
    validateMeta cfg = Except.error (BuildExc.invalidSensorConfig r) := by
  cases hm : validateMeta cfg with
  | error e =>
    simp only [build, hm, Except.bind] at h
    cases h
    rfl
  | ok m =>
    exfalso
    simp only [build, hm, Except.bind] at h
    cases hreg : alistGet f.registry m.stype with
    | none =>
      simp only [hreg] at h
      simp at h
    | some dc =>
      simp only [hreg] at h
      cases hco : applyCoercers dc.COERCERS (filterKwargs dc m.entries) with
      | error e1 =>
        simp only [hco] at h
        cases h
        obtain ⟨fl, hfl⟩ := applyCoercers_err _ _ _ hco
        rcases htrio with h1 | h1 | h1 <;> simp_all
      | ok filtered =>
        simp only [hco] at h
        cases hcr : checkRequired dc filtered with
        | error e2 =>
          simp only [hcr] at h
          cases h
          have := checkRequired_err dc filtered _ hcr
          rcases htrio with h1 | h1 | h1 <;> rcases this with h2 | h2 | h2 <;> simp_all
        | ok u =>
          cases u
          simp only [hcr] at h
          cases hcon : dc.construct filtered with
          | some d =>
            simp only [hcon] at h
            simp at h
          | none =>
            simp only [hcon] at h
            cases h
            rcases htrio with h1 | h1 | h1 <;> simp_all

/-- C6: build rejects any calibration, ranges or smoothing key outside
the canonical key set (the values of the keys map) with an
InvalidSensorConfigError, and an entry whose keys in those maps are all
canonical never fails this particular validation: no build outcome
carries one of the three non-canonical-key reasons. -/
theorem build_rejects_noncanonical_keys (f : SensorFactory)
    (entries km cm rm sm : List (String × PyVal))
    (hkeys : pyGet entries "keys" = PyVal.dictv km)
    (hcal : getMapField entries "calibration" = Except.ok cm)
    (hrng : getMapField entries "ranges" = Except.ok rm)
    (hsm : getMapField entries "smoothing" = Except.ok sm) :
    (((∃ p ∈ cm, canonMember (km.map Prod.snd) p.1 = false)
      ∨ (∃ p ∈ rm, canonMember (km.map Prod.snd) p.1 = false)
      ∨ (∃ p ∈ sm, canonMember (km.map Prod.snd) p.1 = false)) →
      ∃ r, build f (PyVal.dictv entries) =
        Except.error (BuildExc.invalidSensorConfig r))
    ∧ ((∀ p : String × PyVal, (p ∈ cm ∨ p ∈ rm ∨ p ∈ sm) →
        canonMember (km.map Prod.snd) p.1 = true) →
      ∀ r, (r = ConfigErr.calKeyNotCanonical
          ∨ r = ConfigErr.rangeKeyNotCanonical
          ∨ r = ConfigErr.smoothKeyNotCanonical) →
      ¬ build f (PyVal.dictv entries) =
          Except.error (BuildExc.invalidSensorConfig r)) := by
  constructor
  · intro hbad
    cases hv : validateMeta (PyVal.dictv entries) with
    | error e =>
      obtain ⟨r, hr⟩ :=
        validateMeta_err_invalid entries km cm rm sm hkeys hcal hrng hsm e hv
      subst hr
      exact ⟨r, build_of_validateMeta_err f _ _ hv⟩
    | ok m =>
      exfalso
      have hok :=
        validateMeta_ok_canonical entries km cm rm sm hkeys hcal hrng hsm m hv
      rcases hbad with ⟨p, hp, hpf⟩ | ⟨p, hp, hpf⟩ | ⟨p, hp, hpf⟩
      · rw [hok p (Or.inl hp)] at hpf
        cases hpf
      · rw [hok p (Or.inr (Or.inl hp))] at hpf
        cases hpf
      · rw [hok p (Or.inr (Or.inr hp))] at hpf
        cases hpf
  · intro hall r htrio hbuild
    have hv := build_err_trio_source f (PyVal.dictv entries) r hbuild htrio
    have hfound := validateMeta_err_trio entries km cm rm sm hkeys hcal hrng hsm
      r hv htrio
    rcases hfound with ⟨p, hp, hpf⟩ | ⟨p, hp, hpf⟩ | ⟨p, hp, hpf⟩
    · rw [hall p (Or.inl hp)] at hpf
      cases hpf
    · rw [hall p (Or.inr (Or.inl hp))] at hpf
      cases hpf
    · rw [hall p (Or.inr (Or.inr hp))] at hpf
      cases hpf

/-- Witness for C6: the entry calibrating the non-canonical key zzz is
rejected with an InvalidSensorConfigError. -/
theorem build_rejects_noncanonical_keys_witness :
    ∃ r, build testFactory badCalCfg =
      Except.error (BuildExc.invalidSensorConfig r) :=
  (build_rejects_noncanonical_keys testFactory badCalEntries
      [("t", PyVal.strv "k")]
      [("zzz", PyVal.dictv [("offset", PyVal.intv 0), ("slope", PyVal.intv 1)])]
      [] [] (by rfl) (by rfl) (by rfl) (by rfl)).1
    (Or.inl ⟨("zzz", PyVal.dictv [("offset", PyVal.intv 0), ("slope", PyVal.intv 1)]),
      (by simp), (by rfl)⟩)
